import Mathlib

/-!
Shallow embedding of the Translator-API Flask service (src/app.py).

The service is a single request handler (`translate_text`, guarded by the
`require_rapidapi_secret` decorator).  We model:

* JSON values (`Json`), with numbers as integers (the claims only exercise
  integer and non-numeric values);
* Python truthiness (`pyTruthy`), `str()` rendering of values interpolated
  into f-strings (`pyStr`/`pyRepr`; Python's `repr` quote-selection subtleties
  for nested strings are simplified to single quotes), and `str.strip()`
  (`pyStrip`, over the ASCII whitespace characters Python strips);
* the request as the one header the handler reads plus the body's parse
  outcome (`RequestBody`): `notJson` (Flask `request.is_json` is false),
  `badJson` (JSON content type but the body fails to parse, so Flask's
  `get_json` raises `BadRequest`), or `jsonVal j` (the parsed value);
* responses as a status code plus either a JSON body (from `jsonify`) or the
  framework-generated HTML error page that `abort(...)` and uncaught
  exceptions produce (`RespBody.html`; the page text follows werkzeug's
  default layout);
* the handler `translate_text` as a pure function of the configured secret,
  a stubbed external model (`String → Except String String`: the prompt is
  mapped to either the returned text or the message of a raised exception),
  and the request.  Besides the response it records the prompts passed to
  `model.generate_content` and the messages logged via `app.logger.error`,
  so that "the model is never invoked" and "the error is logged" are
  expressible.
-/

/-- JSON values, as produced by Flask's `request.get_json()`.  Numbers are
modelled as integers. -/
inductive Json where
  | null
  | bool (b : Bool)
  | num (n : Int)
  | str (s : String)
  | arr (xs : List Json)
  | obj (fields : List (String × Json))

/-- Python truthiness (`bool(x)`) of a JSON value: `None`, `False`, `0`, `""`,
`[]` and an empty dict are falsy, everything else is truthy. -/
def pyTruthy : Json → Bool
  | .null => false
  | .bool b => b
  | .num n => n != 0
  | .str s => s != ""
  | .arr xs => !xs.isEmpty
  | .obj fs => !fs.isEmpty

mutual

/-- Python `repr` of a JSON value (used for elements of lists and dicts when
they are rendered inside an f-string).  Strings are shown in single quotes;
Python's escaping and quote-selection subtleties are simplified. -/
def pyRepr : Json → String
  | .null => "None"
  | .bool true => "True"
  | .bool false => "False"
  | .num n => toString n
  | .str s => "'" ++ s ++ "'"
  | .arr xs => "[" ++ pyReprList xs ++ "]"
  | .obj fs => "\x7b" ++ pyReprFields fs ++ "\x7d"

/-- Comma-separated `repr`s of the elements of a Python list. -/
def pyReprList : List Json → String
  | [] => ""
  | [j] => pyRepr j
  | j :: js => pyRepr j ++ ", " ++ pyReprList js

/-- Comma-separated `key: value` `repr`s of the entries of a Python dict. -/
def pyReprFields : List (String × Json) → String
  | [] => ""
  | [(k, v)] => "'" ++ k ++ "': " ++ pyRepr v
  | (k, v) :: fs => "'" ++ k ++ "': " ++ pyRepr v ++ ", " ++ pyReprFields fs

end

/-- Python `str()` of a JSON value, as interpolated by an f-string:
the identity on strings, `repr`-like on everything else. -/
def pyStr : Json → String
  | .str s => s
  | j => pyRepr j

/-- The ASCII whitespace characters removed by Python's `str.strip()`. -/
def pyIsSpace (c : Char) : Bool :=
  c = ' ' || c = '\t' || c = '\n' || c = '\x0d' || c = '\x0b' || c = '\x0c'

/-- Python `str.strip()`: drop leading and trailing whitespace. -/
def pyStrip (s : String) : String :=
  ⟨((s.data.dropWhile pyIsSpace).reverse.dropWhile pyIsSpace).reverse⟩

/-- Python's substring test `needle in hay`. -/
def strContains (hay needle : String) : Bool :=
  decide (needle.data <:+: hay.data)

/-- JSON string escaping for the serialized response body (the characters
relevant to this service's fixed messages). -/
def jsonEscapeChar (c : Char) : String :=
  if c = '"' then "\\\"" else
  if c = '\\' then "\\\\" else
  if c = '\n' then "\\n" else
  String.singleton c

/-- Escape every character of a string for JSON serialization. -/
def jsonEscape (s : String) : String :=
  String.join (s.data.map jsonEscapeChar)

mutual

/-- Compact JSON serialization of a value, as `jsonify` would transmit it. -/
def Json.render : Json → String
  | .null => "null"
  | .bool true => "true"
  | .bool false => "false"
  | .num n => toString n
  | .str s => "\"" ++ jsonEscape s ++ "\""
  | .arr xs => "[" ++ Json.renderList xs ++ "]"
  | .obj fs => "\x7b" ++ Json.renderFields fs ++ "\x7d"

/-- Serialize the elements of a JSON array, comma separated. -/
def Json.renderList : List Json → String
  | [] => ""
  | [j] => Json.render j
  | j :: js => Json.render j ++ "," ++ Json.renderList js

/-- Serialize the entries of a JSON object, comma separated. -/
def Json.renderFields : List (String × Json) → String
  | [] => ""
  | [(k, v)] => "\"" ++ jsonEscape k ++ "\":" ++ Json.render v
  | (k, v) :: fs => "\"" ++ jsonEscape k ++ "\":" ++ Json.render v ++ "," ++ Json.renderFields fs

end

/-- Outcome of Flask's body handling for a POST request: the content type is
not JSON (`request.is_json` is false), or it is JSON but the body fails to
parse (`get_json()` raises `BadRequest`), or it parses to a JSON value. -/
inductive RequestBody where
  | notJson
  | badJson
  | jsonVal (j : Json)

/-- An incoming request, reduced to the data the handler reads: the value of
the `X-RapidAPI-Proxy-Secret` header (`none` when absent) and the body. -/
structure HttpRequest where
  proxySecretHeader : Option String
  body : RequestBody

/-- A response body: a JSON document produced by `jsonify`, or the HTML error
page the framework generates for `abort(...)` and uncaught exceptions. -/
inductive RespBody where
  | json (j : Json)
  | html (page : String)

/-- The text of a response body as transmitted on the wire. -/
def RespBody.text : RespBody → String
  | .json j => Json.render j
  | .html page => page

/-- An HTTP response: status code and body. -/
structure HttpResponse where
  status : Nat
  body : RespBody

/-- Werkzeug's default HTML error page for a given status code, name and
description (the layout used by `abort` and by Flask's handlers for uncaught
exceptions). -/
def errorPage (code : Nat) (name description : String) : String :=
  "<!doctype html>\n<html lang=en>\n<title>" ++ toString code ++ " " ++ name ++
  "</title>\n<h1>" ++ name ++ "</h1>\n<p>" ++ description ++ "</p>\n"

/-- Response of `abort(403, description=...)` in the security decorator:
a 403 with werkzeug's HTML error page, not a JSON body. -/
def forbiddenResponse : HttpResponse :=
  ⟨403, .html (errorPage 403 "Forbidden"
    "Forbidden: You are not authorized to access this resource.")⟩

/-- Builds the handler's JSON error payload. -/
def errObj (message : String) : Json :=
  .obj [("status", .str "error"), ("message", .str message)]

/-- Response when `request.is_json` is false. -/
def missingJsonResponse : HttpResponse :=
  ⟨400, .json (errObj "Invalid request: Missing JSON body.")⟩

/-- Response when the body has a JSON content type but fails to parse:
Flask's `get_json` raises `BadRequest`, rendered as werkzeug's HTML page. -/
def badJsonResponse : HttpResponse :=
  ⟨400, .html (errorPage 400 "Bad Request"
    "The browser (or proxy) sent a request that this server could not understand.")⟩

/-- Response when `text` or `target_language` is missing or falsy. -/
def missingFieldsResponse : HttpResponse :=
  ⟨400, .json (errObj "Missing required fields: 'text' and 'target_language'.")⟩

/-- Response when the parsed JSON body is not an object: `data.get(...)`
raises `AttributeError` outside the `try` block, and Flask turns the uncaught
exception into a 500 HTML page. -/
def internalErrorResponse : HttpResponse :=
  ⟨500, .html (errorPage 500 "Internal Server Error"
    "The server encountered an internal error and was unable to complete your request. Either the server is overloaded or there is an error in the application.")⟩

/-- Response when the model's stripped output is empty or contains the
refusal marker. -/
def refusalResponse : HttpResponse :=
  ⟨500, .json (errObj "Translation failed. The model could not process the request.")⟩

/-- Response when the external call raises an exception with message `e`. -/
def exceptionResponse (e : String) : HttpResponse :=
  ⟨500, .json (errObj ("An error occurred during translation: " ++ e))⟩

/-- The success payload: echoes the request's `text` and `target_language`
values and carries the stripped model output. -/
def successResponse (text_to_translate target_language : Json)
    (translated_text : String) : HttpResponse :=
  ⟨200, .json (.obj [
    ("status", .str "success"),
    ("original_text", text_to_translate),
    ("target_language", target_language),
    ("translated_text", .str translated_text)])⟩

/-- Check performed by the `require_rapidapi_secret` decorator:
`request.headers.get('X-RapidAPI-Proxy-Secret') != RAPIDAPI_PROXY_SECRET`.
`true` means the request is rejected with `abort(403, ...)`. -/
def require_rapidapi_secret (secret : String) (req : HttpRequest) : Bool :=
  req.proxySecretHeader != some secret

/-- The prompt built for the model (the f-string of src/app.py lines 66-71). -/
def mkPrompt (source_language target_language text_to_translate : String) : String :=
  "Translate the following text from " ++ source_language ++ " to " ++
  target_language ++ ". " ++
  "Provide ONLY the translated text, without any additional explanations, introductory phrases, or quotation marks." ++
  " Text to translate: '" ++ text_to_translate ++ "'"

/-- Result of one handler invocation: the HTTP response, the prompts passed
to `model.generate_content`, and the messages logged via `app.logger.error`. -/
structure HandlerResult where
  resp : HttpResponse
  modelCalls : List String
  errorLog : List String

/-- The `POST /translate` handler (`translate_text` in src/app.py), guarded
by `require_rapidapi_secret`.  `secret` is the `RAPIDAPI_PROXY_SECRET`
configuration value; `model` stubs `model.generate_content`, mapping the
prompt to the returned text (`.ok`) or to the message of a raised exception
(`.error`). -/
def translate_text (secret : String) (model : String → Except String String)
    (req : HttpRequest) : HandlerResult :=
  if require_rapidapi_secret secret req then
    ⟨forbiddenResponse, [], []⟩
  else
    match req.body with
    | .notJson => ⟨missingJsonResponse, [], []⟩
    | .badJson => ⟨badJsonResponse, [], []⟩
    | .jsonVal data =>
      match data with
      | .obj fields =>
        let text_to_translate := fields.lookup "text"
        let target_language := fields.lookup "target_language"
        let source_language := (fields.lookup "source_language").getD (.str "auto-detect")
        match text_to_translate, target_language with
        | some tj, some gj =>
          if !pyTruthy tj || !pyTruthy gj then
            ⟨missingFieldsResponse, [], []⟩
          else
            let prompt := mkPrompt (pyStr source_language) (pyStr gj) (pyStr tj)
            match model prompt with
            | .ok t =>
              let translated_text := pyStrip t
              if translated_text == "" || strContains translated_text "I am not able to" then
                ⟨refusalResponse, [prompt], []⟩
              else
                ⟨successResponse tj gj translated_text, [prompt], []⟩
            | .error e =>
              ⟨exceptionResponse e, [prompt],
                ["Gemini API error: " ++ e]⟩
        | _, _ => ⟨missingFieldsResponse, [], []⟩
      | _ => ⟨internalErrorResponse, [], []⟩

/-- Shape required of every error body by the spec's error-handling design:
a JSON object `status:"error"` with a string message (claim C5's predicate;
this one definition follows the spec's words, to compare the handler's
responses against). -/
def RespBody.isErrorJson : RespBody → Bool
  | .json (.obj [("status", .str "error"), ("message", .str _)]) => true
  | _ => false

/-! ## Helper lemmas -/

set_option maxRecDepth 100000

/-- A string contains a needle whenever its characters split around it. -/
theorem strContains_of_parts (hay pre needle post : String)
    (h : hay.data = pre.data ++ needle.data ++ post.data) :
    strContains hay needle = true := by
  simp only [strContains, decide_eq_true_eq]
  exact ⟨pre.data, post.data, h.symm⟩

/-- Containment of strings is transitive. -/
theorem strContains_trans (a b c : String) (h1 : strContains b a = true)
    (h2 : strContains c b = true) : strContains c a = true := by
  simp only [strContains, decide_eq_true_eq] at *
  exact h1.trans h2

/-- An authorized request is one whose header matches, so the decorator's
check is false. -/
theorem require_rapidapi_secret_eq_false (secret : String) (req : HttpRequest)
    (h : req.proxySecretHeader = some secret) :
    require_rapidapi_secret secret req = false := by
  simp [require_rapidapi_secret, h]

/-! ## Claims -/

/-- C1: a POST /translate request whose X-RapidAPI-Proxy-Secret header is not
exactly the configured secret (including an absent header) gets the 403
abort response, with no body parsing, no field validation, and no model
invocation: the whole handler result is the constant forbidden response with
an empty call list, for every model stub and every body. -/
theorem c1_auth_gate (secret : String) (model : String → Except String String)
    (req : HttpRequest) (h : req.proxySecretHeader ≠ some secret) :
    translate_text secret model req = ⟨forbiddenResponse, [], []⟩ ∧
    forbiddenResponse.status = 403 := by
  refine ⟨?_, rfl⟩
  unfold translate_text
  simp [require_rapidapi_secret, h]

/-- C1 witness: absent header, arbitrary valid body, stub model. -/
theorem c1_auth_gate_witness :
    translate_text "s3cret" (fun _ => .ok "Hello")
      ⟨none, .jsonVal (.obj [("text", .str "Hola"), ("target_language", .str "English")])⟩ =
      ⟨forbiddenResponse, [], []⟩ ∧
    forbiddenResponse.status = 403 :=
  c1_auth_gate "s3cret" (fun _ => .ok "Hello")
    ⟨none, .jsonVal (.obj [("text", .str "Hola"), ("target_language", .str "English")])⟩
    (by decide)

/-- Unfolding of the handler on an authorized request with a JSON object
body: the matching header passes the decorator and the body's object reaches
the field lookups. -/
theorem translate_text_obj (secret : String) (model : String → Except String String)
    (fields : List (String × Json)) :
    translate_text secret model ⟨some secret, .jsonVal (.obj fields)⟩ =
      (match fields.lookup "text", fields.lookup "target_language" with
       | some tj, some gj =>
         if !pyTruthy tj || !pyTruthy gj then
           ⟨missingFieldsResponse, [], []⟩
         else
           let prompt := mkPrompt
             (pyStr ((fields.lookup "source_language").getD (.str "auto-detect")))
             (pyStr gj) (pyStr tj)
           match model prompt with
           | .ok t =>
             let translated_text := pyStrip t
             if translated_text == "" || strContains translated_text "I am not able to" then
               ⟨refusalResponse, [prompt], []⟩
             else
               ⟨successResponse tj gj translated_text, [prompt], []⟩
           | .error e =>
             ⟨exceptionResponse e, [prompt], ["Gemini API error: " ++ e]⟩
       | _, _ => ⟨missingFieldsResponse, [], []⟩) := by
  unfold translate_text require_rapidapi_secret
  simp only [bne_self_eq_false, Bool.false_eq_true, if_false]

/-- C4: an authorized request whose JSON body lacks text or target_language,
or binds one of them to the empty string, gets the 400 missing-fields
response, whose message names both field names. -/
theorem c4_missing_fields (secret : String) (model : String → Except String String)
    (fields : List (String × Json))
    (h : fields.lookup "text" = none ∨ fields.lookup "text" = some (.str "") ∨
         fields.lookup "target_language" = none ∨
         fields.lookup "target_language" = some (.str "")) :
    translate_text secret model ⟨some secret, .jsonVal (.obj fields)⟩ =
      ⟨missingFieldsResponse, [], []⟩ ∧
    missingFieldsResponse.status = 400 ∧
    strContains missingFieldsResponse.body.text "'text'" = true ∧
    strContains missingFieldsResponse.body.text "'target_language'" = true := by
  refine ⟨?_, rfl, by decide, by decide⟩
  rw [translate_text_obj]
  rcases h with h | h | h | h
  · rcases hg : fields.lookup "target_language" with _ | gj <;> rw [h] <;>
      first | rfl | simp [pyTruthy]
  · rcases hg : fields.lookup "target_language" with _ | gj <;> rw [h] <;>
      first | rfl | simp [pyTruthy]
  · rcases ht : fields.lookup "text" with _ | tj <;> rw [h] <;>
      first | rfl | simp [pyTruthy]
  · rcases ht : fields.lookup "text" with _ | tj <;> rw [h] <;>
      first | rfl | simp [pyTruthy]

/-- C4 witness: body with only target_language; text is absent. -/
theorem c4_missing_fields_witness :
    translate_text "s3cret" (fun _ => .ok "Hello")
      ⟨some "s3cret", .jsonVal (.obj [("target_language", .str "English")])⟩ =
      ⟨missingFieldsResponse, [], []⟩ ∧
    missingFieldsResponse.status = 400 ∧
    strContains missingFieldsResponse.body.text "'text'" = true ∧
    strContains missingFieldsResponse.body.text "'target_language'" = true :=
  c4_missing_fields "s3cret" (fun _ => .ok "Hello")
    [("target_language", .str "English")] (Or.inl rfl)

/-- C9: an authorized request whose body binds text or target_language to a
falsy JSON value (0, false, null, an empty array, ...) gets the 400
missing-fields response: the validation tests truthiness, not key presence. -/
theorem c9_falsy_field_value (secret : String) (model : String → Except String String)
    (fields : List (String × Json)) (tj gj : Json)
    (h : (fields.lookup "text" = some tj ∧ pyTruthy tj = false) ∨
         (fields.lookup "target_language" = some gj ∧ pyTruthy gj = false)) :
    translate_text secret model ⟨some secret, .jsonVal (.obj fields)⟩ =
      ⟨missingFieldsResponse, [], []⟩ ∧
    missingFieldsResponse.status = 400 := by
  refine ⟨?_, rfl⟩
  rw [translate_text_obj]
  rcases h with ⟨h, hfalse⟩ | ⟨h, hfalse⟩
  · rcases hg : fields.lookup "target_language" with _ | gj' <;> rw [h] <;>
      simp [hfalse]
  · rcases ht : fields.lookup "text" with _ | tj' <;> rw [h] <;>
      simp [hfalse]

/-- C9 witness: text bound to the number 0, a falsy non-string value. -/
theorem c9_falsy_field_value_witness :
    translate_text "s3cret" (fun _ => .ok "Hello")
      ⟨some "s3cret", .jsonVal (.obj [("text", .num 0), ("target_language", .str "French")])⟩ =
      ⟨missingFieldsResponse, [], []⟩ ∧
    missingFieldsResponse.status = 400 :=
  c9_falsy_field_value "s3cret" (fun _ => .ok "Hello")
    [("text", .num 0), ("target_language", .str "French")] (.num 0) .null
    (Or.inl ⟨rfl, rfl⟩)

/-- C7: an authorized request whose body is not valid JSON (wrong content
type, or a JSON content type that fails to parse) gets a 400 and the model
is never invoked. -/
theorem c7_invalid_json_body (secret : String) (model : String → Except String String)
    (req : HttpRequest) (hauth : req.proxySecretHeader = some secret)
    (hbody : req.body = .notJson ∨ req.body = .badJson) :
    (translate_text secret model req).resp.status = 400 ∧
    (translate_text secret model req).modelCalls = [] := by
  refine ⟨?_, ?_⟩ <;> rcases hbody with h | h <;>
    simp [translate_text, require_rapidapi_secret, hauth, h,
      missingJsonResponse, badJsonResponse]

/-- C7 witness: correct secret, body with a non-JSON content type. -/
theorem c7_invalid_json_body_witness :
    (translate_text "s3cret" (fun _ => .ok "Hello") ⟨some "s3cret", .notJson⟩).resp.status = 400 ∧
    (translate_text "s3cret" (fun _ => .ok "Hello") ⟨some "s3cret", .notJson⟩).modelCalls = [] :=
  c7_invalid_json_body "s3cret" (fun _ => .ok "Hello") ⟨some "s3cret", .notJson⟩
    rfl (Or.inl rfl)

/-- C3: when the external call raises an exception with message e on an
authorized, validated request, the handler returns 500 with status "error"
and a message embedding e, and logs the error server-side. -/
theorem c3_upstream_exception (secret : String) (model : String → Except String String)
    (fields : List (String × Json)) (tj gj : Json) (e : String)
    (ht : fields.lookup "text" = some tj) (htt : pyTruthy tj = true)
    (hg : fields.lookup "target_language" = some gj) (hgt : pyTruthy gj = true)
    (hmodel : model (mkPrompt
      (pyStr ((fields.lookup "source_language").getD (.str "auto-detect")))
      (pyStr gj) (pyStr tj)) = .error e) :
    translate_text secret model ⟨some secret, .jsonVal (.obj fields)⟩ =
      ⟨exceptionResponse e,
        [mkPrompt (pyStr ((fields.lookup "source_language").getD (.str "auto-detect")))
          (pyStr gj) (pyStr tj)],
        ["Gemini API error: " ++ e]⟩ ∧
    (exceptionResponse e).status = 500 ∧
    strContains ("An error occurred during translation: " ++ e) e = true := by
  refine ⟨?_, rfl, ?_⟩
  · rw [translate_text_obj, ht, hg]
    simp [htt, hgt, hmodel]
  · exact strContains_of_parts _ "An error occurred during translation: " _ ""
      (by simp [String.data_append])

/-- C3 witness: a stub raising "rate limit exceeded". -/
theorem c3_upstream_exception_witness :
    translate_text "s3cret" (fun _ => .error "rate limit exceeded")
      ⟨some "s3cret", .jsonVal (.obj [("text", .str "Hola"), ("target_language", .str "English")])⟩ =
      ⟨exceptionResponse "rate limit exceeded",
        [mkPrompt "auto-detect" "English" "Hola"],
        ["Gemini API error: " ++ "rate limit exceeded"]⟩ ∧
    (exceptionResponse "rate limit exceeded").status = 500 ∧
    strContains ("An error occurred during translation: " ++ "rate limit exceeded")
      "rate limit exceeded" = true :=
  c3_upstream_exception "s3cret" (fun _ => .error "rate limit exceeded")
    [("text", .str "Hola"), ("target_language", .str "English")]
    (.str "Hola") (.str "English") "rate limit exceeded" rfl rfl rfl rfl rfl

/-- C2: when the model's stripped output is empty or contains the refusal
marker "I am not able to", the handler returns the fixed 500 refusal
response; if the raw model output contains the refusal marker, that output
does not occur anywhere in the transmitted response body. -/
theorem c2_refusal_suppressed (secret : String) (model : String → Except String String)
    (fields : List (String × Json)) (tj gj : Json) (t : String)
    (ht : fields.lookup "text" = some tj) (htt : pyTruthy tj = true)
    (hg : fields.lookup "target_language" = some gj) (hgt : pyTruthy gj = true)
    (hmodel : model (mkPrompt
      (pyStr ((fields.lookup "source_language").getD (.str "auto-detect")))
      (pyStr gj) (pyStr tj)) = .ok t)
    (hbad : pyStrip t = "" ∨ strContains (pyStrip t) "I am not able to" = true) :
    (translate_text secret model ⟨some secret, .jsonVal (.obj fields)⟩).resp = refusalResponse ∧
    refusalResponse.status = 500 ∧
    (strContains t "I am not able to" = true →
      strContains
        (RespBody.text (translate_text secret model ⟨some secret, .jsonVal (.obj fields)⟩).resp.body)
        t = false) := by
  have hmain : (translate_text secret model ⟨some secret, .jsonVal (.obj fields)⟩).resp =
      refusalResponse := by
    rw [translate_text_obj, ht, hg]
    rcases hbad with hb | hb <;> simp [htt, hgt, hmodel, hb]
  refine ⟨hmain, rfl, ?_⟩
  intro hneedle
  rw [hmain]
  cases hb : strContains (RespBody.text refusalResponse.body) t
  · rfl
  · exfalso
    have h2 := strContains_trans "I am not able to" t
      (RespBody.text refusalResponse.body) hneedle hb
    have h3 : strContains (RespBody.text refusalResponse.body) "I am not able to" = false := by
      decide
    rw [h2] at h3
    exact Bool.true_eq_false.mp h3

/-- C2 witness: the stub returns the exact refusal string of the spec. -/
theorem c2_refusal_suppressed_witness :
    (translate_text "s3cret" (fun _ => .ok "I am not able to do that")
      ⟨some "s3cret", .jsonVal (.obj [("text", .str "Hola"), ("target_language", .str "English")])⟩).resp =
      refusalResponse ∧
    refusalResponse.status = 500 ∧
    strContains
      (RespBody.text (translate_text "s3cret" (fun _ => .ok "I am not able to do that")
        ⟨some "s3cret", .jsonVal (.obj [("text", .str "Hola"), ("target_language", .str "English")])⟩).resp.body)
      "I am not able to do that" = false := by
  have h := c2_refusal_suppressed "s3cret" (fun _ => .ok "I am not able to do that")
    [("text", .str "Hola"), ("target_language", .str "English")]
    (.str "Hola") (.str "English") "I am not able to do that" rfl rfl rfl rfl rfl
    (Or.inr (by decide))
  exact ⟨h.1, h.2.1, h.2.2 (by decide)⟩

/-- C6: on an authorized, validated request whose model output strips to a
non-empty, non-refusal string, the handler returns 200 with status
"success", echoing text and target_language unchanged and carrying the
stripped model output as translated_text. -/
theorem c6_success_response (secret : String) (model : String → Except String String)
    (fields : List (String × Json)) (tj gj : Json) (t : String)
    (ht : fields.lookup "text" = some tj) (htt : pyTruthy tj = true)
    (hg : fields.lookup "target_language" = some gj) (hgt : pyTruthy gj = true)
    (hmodel : model (mkPrompt
      (pyStr ((fields.lookup "source_language").getD (.str "auto-detect")))
      (pyStr gj) (pyStr tj)) = .ok t)
    (hne : ¬ pyStrip t = "")
    (href : strContains (pyStrip t) "I am not able to" = false) :
    translate_text secret model ⟨some secret, .jsonVal (.obj fields)⟩ =
      ⟨successResponse tj gj (pyStrip t),
        [mkPrompt (pyStr ((fields.lookup "source_language").getD (.str "auto-detect")))
          (pyStr gj) (pyStr tj)],
        []⟩ ∧
    (successResponse tj gj (pyStrip t)).status = 200 := by
  refine ⟨?_, rfl⟩
  rw [translate_text_obj, ht, hg]
  simp [htt, hgt, hmodel, hne, href]

/-- C6 witness: text "Hola" to English with a stub returning " Hello ";
translated_text is the stripped "Hello". -/
theorem c6_success_response_witness :
    translate_text "s3cret" (fun _ => .ok " Hello ")
      ⟨some "s3cret", .jsonVal (.obj [("text", .str "Hola"), ("target_language", .str "English")])⟩ =
      ⟨successResponse (.str "Hola") (.str "English") "Hello",
        [mkPrompt "auto-detect" "English" "Hola"], []⟩ ∧
    (successResponse (.str "Hola") (.str "English") "Hello").status = 200 :=
  c6_success_response "s3cret" (fun _ => .ok " Hello ")
    [("text", .str "Hola"), ("target_language", .str "English")]
    (.str "Hola") (.str "English") " Hello " rfl rfl rfl rfl rfl
    (by decide) (by decide)

/-- On an authorized, validated request the model is invoked exactly once,
with the prompt built from the resolved source language, the target language
and the text, whatever the model then returns. -/
theorem translate_text_modelCalls (secret : String) (model : String → Except String String)
    (fields : List (String × Json)) (tj gj : Json)
    (ht : fields.lookup "text" = some tj) (htt : pyTruthy tj = true)
    (hg : fields.lookup "target_language" = some gj) (hgt : pyTruthy gj = true) :
    (translate_text secret model ⟨some secret, .jsonVal (.obj fields)⟩).modelCalls =
      [mkPrompt (pyStr ((fields.lookup "source_language").getD (.str "auto-detect")))
        (pyStr gj) (pyStr tj)] := by
  rw [translate_text_obj, ht, hg]
  have hcond : (!pyTruthy tj || !pyTruthy gj) = false := by simp [htt, hgt]
  simp only [hcond, Bool.false_eq_true, if_false]
  split
  · split <;> rfl
  · rfl

/-- C8: on an authorized, validated request the single prompt passed to the
model contains the resolved source language, the target language and the
text verbatim as contiguous substrings, plus the instruction to return only
the translated text without explanations, introductory phrases or quotation
marks. -/
theorem c8_prompt_contents (secret : String) (model : String → Except String String)
    (fields : List (String × Json)) (srcS tgtS textS : String)
    (ht : fields.lookup "text" = some (.str textS)) (htne : textS ≠ "")
    (hg : fields.lookup "target_language" = some (.str tgtS)) (hgne : tgtS ≠ "")
    (hsrc : (fields.lookup "source_language").getD (.str "auto-detect") = .str srcS) :
    (translate_text secret model ⟨some secret, .jsonVal (.obj fields)⟩).modelCalls =
      [mkPrompt srcS tgtS textS] ∧
    strContains (mkPrompt srcS tgtS textS) srcS = true ∧
    strContains (mkPrompt srcS tgtS textS) tgtS = true ∧
    strContains (mkPrompt srcS tgtS textS) textS = true ∧
    strContains (mkPrompt srcS tgtS textS)
      "Provide ONLY the translated text, without any additional explanations, introductory phrases, or quotation marks."
      = true := by
  refine ⟨?_, ?_, ?_, ?_, ?_⟩
  · have hmc := translate_text_modelCalls secret model fields (.str textS) (.str tgtS)
      ht (by simp [pyTruthy, htne]) hg (by simp [pyTruthy, hgne])
    rw [hmc, hsrc]
    simp [pyStr]
  · exact strContains_of_parts _ "Translate the following text from " _
      (" to " ++ tgtS ++ ". " ++
       "Provide ONLY the translated text, without any additional explanations, introductory phrases, or quotation marks." ++
       " Text to translate: '" ++ textS ++ "'")
      (by simp [mkPrompt, String.data_append])
  · exact strContains_of_parts _ ("Translate the following text from " ++ srcS ++ " to ") _
      (". " ++
       "Provide ONLY the translated text, without any additional explanations, introductory phrases, or quotation marks." ++
       " Text to translate: '" ++ textS ++ "'")
      (by simp [mkPrompt, String.data_append])
  · exact strContains_of_parts _
      ("Translate the following text from " ++ srcS ++ " to " ++ tgtS ++ ". " ++
       "Provide ONLY the translated text, without any additional explanations, introductory phrases, or quotation marks." ++
       " Text to translate: '") _ "'"
      (by simp [mkPrompt, String.data_append])
  · exact strContains_of_parts _
      ("Translate the following text from " ++ srcS ++ " to " ++ tgtS ++ ". ") _
      (" Text to translate: '" ++ textS ++ "'")
      (by simp [mkPrompt, String.data_append])

/-- C8 witness: explicit source language "Spanish". -/
theorem c8_prompt_contents_witness :
    (translate_text "s3cret" (fun _ => .ok "Hello")
      ⟨some "s3cret", .jsonVal (.obj [("text", .str "Hola"), ("target_language", .str "English"),
        ("source_language", .str "Spanish")])⟩).modelCalls =
      [mkPrompt "Spanish" "English" "Hola"] ∧
    strContains (mkPrompt "Spanish" "English" "Hola") "Spanish" = true ∧
    strContains (mkPrompt "Spanish" "English" "Hola") "English" = true ∧
    strContains (mkPrompt "Spanish" "English" "Hola") "Hola" = true ∧
    strContains (mkPrompt "Spanish" "English" "Hola")
      "Provide ONLY the translated text, without any additional explanations, introductory phrases, or quotation marks."
      = true :=
  c8_prompt_contents "s3cret" (fun _ => .ok "Hello")
    [("text", .str "Hola"), ("target_language", .str "English"), ("source_language", .str "Spanish")]
    "Spanish" "English" "Hola" rfl (by decide) rfl (by decide) rfl

/-- C10: the default source language "auto-detect" is used exactly when the
source_language key is absent; when the key is present with a string value,
that value - the empty string included - is embedded into the prompt as-is. -/
theorem c10_source_default_iff_absent (secret : String)
    (model : String → Except String String)
    (fields : List (String × Json)) (textS tgtS : String)
    (ht : fields.lookup "text" = some (.str textS)) (htne : textS ≠ "")
    (hg : fields.lookup "target_language" = some (.str tgtS)) (hgne : tgtS ≠ "") :
    (fields.lookup "source_language" = none →
      (translate_text secret model ⟨some secret, .jsonVal (.obj fields)⟩).modelCalls =
        [mkPrompt "auto-detect" tgtS textS]) ∧
    (∀ s : String, fields.lookup "source_language" = some (.str s) →
      (translate_text secret model ⟨some secret, .jsonVal (.obj fields)⟩).modelCalls =
        [mkPrompt s tgtS textS]) := by
  have hmc := translate_text_modelCalls secret model fields (.str textS) (.str tgtS)
    ht (by simp [pyTruthy, htne]) hg (by simp [pyTruthy, hgne])
  constructor
  · intro h0
    rw [hmc, h0]
    simp [pyStr]
  · intro s hs
    rw [hmc, hs]
    simp [pyStr]

/-- C10 witness: source_language present as the empty string is embedded
as-is, leaving the prompt's source slot empty instead of "auto-detect". -/
theorem c10_source_default_iff_absent_witness :
    (translate_text "s3cret" (fun _ => .ok "Hello")
      ⟨some "s3cret", .jsonVal (.obj [("text", .str "Hola"), ("target_language", .str "English"),
        ("source_language", .str "")])⟩).modelCalls =
      [mkPrompt "" "English" "Hola"] :=
  (c10_source_default_iff_absent "s3cret" (fun _ => .ok "Hello")
    [("text", .str "Hola"), ("target_language", .str "English"), ("source_language", .str "")]
    "Hola" "English" rfl (by decide) rfl (by decide)).2 "" rfl

/-- C5 counterexample: a request failing the auth gate terminates with an
error (status 403), but its body is the framework's HTML error page produced
by abort, not a JSON object of the form status "error" / message. -/
theorem c5_counterexample :
    (translate_text "s3cret" (fun _ => .ok "Hello") ⟨none, .notJson⟩).resp.status = 403 ∧
    (translate_text "s3cret" (fun _ => .ok "Hello") ⟨none, .notJson⟩).resp.body.isErrorJson
      = false := by
  exact ⟨rfl, rfl⟩

/-- C5 amended: every error response produced by the handler's own returns
(missing JSON body 400, missing-fields 400, model refusal 500, upstream
exception 500) is a JSON object status "error" / message; the authorization
403 abort, JSON parse failures and non-object bodies are excluded, being
framework-generated HTML pages. -/
theorem c5_error_responses_json (secret : String) (model : String → Except String String)
    (req : HttpRequest) (hauth : req.proxySecretHeader = some secret)
    (hbody : req.body = .notJson ∨ ∃ fields, req.body = .jsonVal (.obj fields))
    (herr : (translate_text secret model req).resp.status ≠ 200) :
    (translate_text secret model req).resp.body.isErrorJson = true := by
  obtain ⟨hdr, bdy⟩ := req
  simp only at hauth
  subst hauth
  rcases hbody with h | ⟨fields, h⟩ <;> simp only at h <;> subst h
  · simp [translate_text, require_rapidapi_secret, missingJsonResponse, errObj,
      RespBody.isErrorJson]
  · rw [translate_text_obj] at herr ⊢
    rcases ht : fields.lookup "text" with _ | tj <;>
      rcases hgl : fields.lookup "target_language" with _ | gj
    · rfl
    · rfl
    · rfl
    · rw [ht, hgl] at herr
      by_cases hc : (!pyTruthy tj || !pyTruthy gj) = true
      · simp only [hc, if_true]
        rfl
      · simp only [Bool.not_eq_true] at hc
        simp only [hc, Bool.false_eq_true, if_false] at herr ⊢
        cases hm : model (mkPrompt
            (pyStr ((fields.lookup "source_language").getD (.str "auto-detect")))
            (pyStr gj) (pyStr tj)) with
        | ok t =>
          simp only [hm] at herr ⊢
          by_cases hr : (pyStrip t == "" || strContains (pyStrip t) "I am not able to") = true
          · simp only [hr, if_true]
            rfl
          · simp only [Bool.not_eq_true] at hr
            simp only [hr, Bool.false_eq_true, if_false, successResponse] at herr
            exact absurd rfl herr
        | error e =>
          simp only [hm]
          rfl

/-- C5 amended witness: an authorized request with an empty JSON object gets
the 400 missing-fields error, whose body has the required JSON shape. -/
theorem c5_error_responses_json_witness :
    (translate_text "s3cret" (fun _ => .ok "Hello")
      ⟨some "s3cret", .jsonVal (.obj [])⟩).resp.body.isErrorJson = true :=
  c5_error_responses_json "s3cret" (fun _ => .ok "Hello")
    ⟨some "s3cret", .jsonVal (.obj [])⟩ rfl (Or.inr ⟨[], rfl⟩) (by decide)
